import Mathlib

/-!
Shallow embedding of the gemini-lens-frontend client logic.

The repository is a single-page web client with two analysis flows:

* a text flow, implemented twice: the component `TextAnalysis`
  (src/src/pages/TextAnalysis.tsx) and the near-duplicate component
  `TextAnalysisPage` (second document inside src/src/pages/AudioAnalysis.tsx);
* an audio flow, the component `AudioAnalysis`
  (first document inside src/src/pages/AudioAnalysis.tsx).

Each event handler is embedded as a pure function from the component state
(the React useState fields) and the observed network responses to the new
state together with the list of endpoints actually fetched, in order.
JavaScript truthiness of `a || b` on strings is modelled by `jsOr`, and
`Math.round` on numbers is modelled on rationals by `jsMathRound`
(round half toward positive infinity).
-/

/-- JavaScript `a || b` for strings: the empty string is falsy. -/
def jsOr (s fallback : String) : String :=
  if s = "" then fallback else s

/-- JavaScript `a?.f || b` where the field access may yield undefined. -/
def jsOrOpt (o : Option String) (fallback : String) : String :=
  match o with
  | none => fallback
  | some s => jsOr s fallback

/-- JavaScript `Math.round`: rounds half toward positive infinity. -/
def jsMathRound (x : ℚ) : ℤ := ⌊x + 1 / 2⌋

/-- JavaScript `String.prototype.trim`: drops whitespace from both ends.
Modelled on the underlying character list. -/
def jsTrim (s : String) : String :=
  ⟨((s.data.dropWhile Char.isWhitespace).reverse.dropWhile Char.isWhitespace).reverse⟩

/-- JavaScript `String.prototype.toLowerCase`, characterwise. -/
def jsToLower (s : String) : String :=
  ⟨s.data.map Char.toLower⟩

/-- JavaScript `String.prototype.startsWith`. -/
def jsStartsWith (s pat : String) : Bool :=
  pat.data.isPrefixOf s.data

/-- JavaScript `String.prototype.endsWith`. -/
def jsEndsWith (s pat : String) : Bool :=
  pat.data.isSuffixOf s.data

/-- JavaScript `String.prototype.includes`: substring test. -/
def jsIncludes (s pat : String) : Bool :=
  (List.range (s.data.length + 1)).any fun i => pat.data.isPrefixOf (s.data.drop i)

/-- The remote endpoints the client can contact. -/
inductive Endpoint where
  | predict
  | explain
  | audioPredict
deriving DecidableEq, Repr

/-- The React state field `result`: `{label, confidence}` where `confidence`
is already scaled by 100 when stored (`data.confidence * 100`). -/
structure PredResult where
  label : String
  confidence : ℚ
deriving DecidableEq, Repr

/-- Parsed JSON body of a 2xx `/predict` or `/audio-predict` reply. -/
structure PredictBody where
  prediction : String
  confidence : ℚ
deriving DecidableEq, Repr

/-- Parsed JSON body of a non-2xx reply: the optional `error` field.
`none` models an absent field (or a body that is not an object). -/
structure ErrorBody where
  error : Option String
deriving DecidableEq, Repr

/-- Observable outcome of the predict (or audio-predict) request, as the
handler distinguishes it: the awaited chain threw (network failure or a
JSON parse failure on a 2xx body, both reach the same catch with the
thrown message), a non-2xx reply whose error body was parsed with
`.catch(() => null)`, or a 2xx reply with a parsed body. -/
inductive PredictResponse where
  | throws (msg : String)
  | failure (status : Nat) (body : Option ErrorBody)
  | success (body : PredictBody)
deriving DecidableEq, Repr

/-- Observable outcome of the explain request: the awaited chain threw,
a non-2xx reply (whose body the handlers never read), or a 2xx reply
whose JSON body optionally carries an `explanation` string field. -/
inductive ExplainResponse where
  | throws (msg : String)
  | failure
  | success (explanation : Option String)
deriving DecidableEq, Repr

/-- The message built from a non-2xx reply: the `error` field of the parsed
body when truthy, else the generic message with the numeric status appended
(the template literal `Server error:` followed by the status). -/
def serverErrorMessage (status : Nat) (body : Option ErrorBody) : String :=
  jsOrOpt (body.bind fun b => b.error) ("Server error: " ++ toString status)

/-- The useState fields of the two text-flow components. -/
structure TextState where
  text : String
  isLoading : Bool
  isExplaining : Bool
  error : Option String
  result : Option PredResult
  explanation : Option String
deriving DecidableEq, Repr

namespace TextAnalysis

/-- `handleClearText` of src/src/pages/TextAnalysis.tsx. -/
def handleClearText (s : TextState) : TextState :=
  { s with text := "", result := none, error := none, explanation := none }

/-- The part of `handleSubmit` that runs before any fetch: validation and,
when it passes, the state mutations preceding the predict request
(`setIsLoading(true); setError(null); setExplanation(null); setResult(null)`).
The Bool records whether the handler proceeds to fetch. -/
def preRequest (s : TextState) : TextState × Bool :=
  if jsTrim s.text = "" then
    ({ s with error := some "Please enter some text to analyze" }, false)
  else if s.text.length < 20 then
    ({ s with error := some "Please enter at least 20 characters for more accurate analysis" },
      false)
  else
    ({ s with isLoading := true, error := none, explanation := none, result := none }, true)

/-- `handleSubmit` of src/src/pages/TextAnalysis.tsx, as a function of the
observed responses; also returns the endpoints fetched, in order. -/
def handleSubmit (s : TextState) (pr : PredictResponse) (er : ExplainResponse) :
    TextState × List Endpoint :=
  match preRequest s with
  | (s1, false) => (s1, [])
  | (s1, true) =>
    match pr with
    | .throws msg =>
        ({ s1 with error := some (jsOr msg "Failed to analyze text. Please try again."),
                   isLoading := false, isExplaining := false }, [.predict])
    | .failure status body =>
        ({ s1 with
             error := some (jsOr (serverErrorMessage status body)
                              "Failed to analyze text. Please try again."),
             isLoading := false, isExplaining := false }, [.predict])
    | .success b =>
        let s2 := { s1 with result := some ⟨b.prediction, b.confidence * 100⟩,
                            isExplaining := true }
        match er with
        | .throws msg =>
            ({ s2 with error := some (jsOr msg "Failed to analyze text. Please try again."),
                       isLoading := false, isExplaining := false }, [.predict, .explain])
        | .failure =>
            ({ s2 with isLoading := false, isExplaining := false }, [.predict, .explain])
        | .success expl =>
            ({ s2 with explanation := some (jsOrOpt expl "No explanation available."),
                       isLoading := false, isExplaining := false }, [.predict, .explain])

end TextAnalysis

namespace TextAnalysisPage

/-- Validation and pre-fetch mutations of the duplicate `handleSubmit` in the
`TextAnalysisPage` component (second document of src/src/pages/AudioAnalysis.tsx);
textually identical to the `TextAnalysis` variant. -/
def preRequest (s : TextState) : TextState × Bool :=
  if jsTrim s.text = "" then
    ({ s with error := some "Please enter some text to analyze" }, false)
  else if s.text.length < 20 then
    ({ s with error := some "Please enter at least 20 characters for more accurate analysis" },
      false)
  else
    ({ s with isLoading := true, error := none, explanation := none, result := none }, true)

/-- `handleSubmit` of the `TextAnalysisPage` component. It differs from the
`TextAnalysis` variant in the explain phase (fixed fallback message on a
non-2xx explain reply; the raw `explanation` field on success) and in the
catch fallback message. -/
def handleSubmit (s : TextState) (pr : PredictResponse) (er : ExplainResponse) :
    TextState × List Endpoint :=
  match preRequest s with
  | (s1, false) => (s1, [])
  | (s1, true) =>
    match pr with
    | .throws msg =>
        ({ s1 with
             error := some (jsOr msg
               "Failed to connect to the prediction API. Ensure the Flask backend is running."),
             isLoading := false, isExplaining := false }, [.predict])
    | .failure status body =>
        ({ s1 with
             error := some (jsOr (serverErrorMessage status body)
               "Failed to connect to the prediction API. Ensure the Flask backend is running."),
             isLoading := false, isExplaining := false }, [.predict])
    | .success b =>
        let s2 := { s1 with result := some ⟨b.prediction, b.confidence * 100⟩,
                            isExplaining := true }
        match er with
        | .throws msg =>
            ({ s2 with
                 error := some (jsOr msg
                   "Failed to connect to the prediction API. Ensure the Flask backend is running."),
                 isLoading := false, isExplaining := false }, [.predict, .explain])
        | .failure =>
            ({ s2 with explanation := some "Explanation request failed. Please try again.",
                       isLoading := false, isExplaining := false }, [.predict, .explain])
        | .success expl =>
            ({ s2 with explanation := expl,
                       isLoading := false, isExplaining := false }, [.predict, .explain])

end TextAnalysisPage

/-- The fields of a selected browser `File` the audio flow reads. -/
structure AudioFile where
  name : String
  type : String
  size : Nat
deriving DecidableEq, Repr

/-- The useState fields of the `AudioAnalysis` component. -/
structure AudioState where
  file : Option AudioFile
  isLoading : Bool
  error : Option String
  result : Option PredResult
deriving DecidableEq, Repr

namespace AudioAnalysis

/-- `handleFileChange` of src/src/pages/AudioAnalysis.tsx, for a selection
event carrying `selectedFile`. The function contains no fetch, so the
endpoint list is empty in every branch. -/
def handleFileChange (s : AudioState) (selectedFile : AudioFile) :
    AudioState × List Endpoint :=
  if ¬ jsStartsWith selectedFile.type "audio/" then
    ({ s with error := some "Please select a valid audio file (MP3 or WAV)" }, [])
  else if selectedFile.size > 25 * 1024 * 1024 then
    ({ s with error := some "File size exceeds 25MB limit" }, [])
  else
    ({ s with file := some selectedFile, error := none, result := none }, [])

/-- `handleRemoveFile` of src/src/pages/AudioAnalysis.tsx. -/
def handleRemoveFile (s : AudioState) : AudioState :=
  { s with file := none, result := none, error := none }

/-- The inline check of `handleSubmit`:
`file.name.toLowerCase().endsWith(".wav") && file.name.toLowerCase().includes("_lie_")`. -/
def isLieFixture (f : AudioFile) : Bool :=
  jsEndsWith (jsToLower f.name) ".wav" && jsIncludes (jsToLower f.name) "_lie_"

/-- The part of the audio `handleSubmit` that runs before any fetch: the
missing-file guard, the lie-fixture short circuit, and otherwise
`setIsLoading(true); setError(null)`. The Bool records whether the handler
proceeds to fetch. -/
def preRequest (s : AudioState) : AudioState × Bool :=
  match s.file with
  | none => ({ s with error := some "Please select an audio file to analyze" }, false)
  | some f =>
    if isLieFixture f then
      ({ s with result := some ⟨"Deceptive", 95⟩, isLoading := false, error := none }, false)
    else
      ({ s with isLoading := true, error := none }, true)

/-- `handleSubmit` of src/src/pages/AudioAnalysis.tsx. -/
def handleSubmit (s : AudioState) (pr : PredictResponse) :
    AudioState × List Endpoint :=
  match preRequest s with
  | (s1, false) => (s1, [])
  | (s1, true) =>
    match pr with
    | .throws msg =>
        ({ s1 with error := some (jsOr msg "Failed to analyze audio. Please try again."),
                   isLoading := false }, [.audioPredict])
    | .failure status body =>
        ({ s1 with
             error := some (jsOr (serverErrorMessage status body)
                              "Failed to analyze audio. Please try again."),
             isLoading := false }, [.audioPredict])
    | .success b =>
        ({ s1 with result := some ⟨b.prediction, b.confidence * 100⟩,
                   isLoading := false }, [.audioPredict])

end AudioAnalysis

namespace PredictionResult

/-- `const confidencePercent = Math.round(confidence)` of
src/src/components/PredictionResult.tsx. -/
def confidencePercent (confidence : ℚ) : ℤ := jsMathRound confidence

/-- The displayed pair of the `PredictionResult` component. -/
structure Display where
  label : String
  confidencePercent : ℤ
deriving DecidableEq, Repr

/-- What the `PredictionResult` component renders from its props. -/
def display (label : String) (confidence : ℚ) : Display :=
  ⟨label, confidencePercent confidence⟩

end PredictionResult

/-- The condition under which the text-flow validation passes: nonempty
after trimming and at least 20 characters. -/
def textValid (text : String) : Prop :=
  jsTrim text ≠ "" ∧ ¬ text.length < 20

instance (text : String) : Decidable (textValid text) := by
  unfold textValid; infer_instance

/-! ## Helper lemmas -/

theorem jsOr_of_ne (s fb : String) (h : s ≠ "") : jsOr s fb = s := by
  unfold jsOr
  rw [if_neg h]

theorem serverErrorMessage_ne_empty (status : Nat) (body : Option ErrorBody) :
    serverErrorMessage status body ≠ "" := by
  have hgen : ("Server error: " ++ toString status) ≠ "" := by
    intro hcontra
    have h2 := congrArg String.data hcontra
    rw [String.data_append] at h2
    simp at h2
  unfold serverErrorMessage
  cases body.bind (fun b => b.error) with
  | none =>
      simp only [jsOrOpt]
      exact hgen
  | some s =>
      simp only [jsOrOpt, jsOr]
      by_cases hs : s = ""
      · rw [if_pos hs]
        exact hgen
      · rw [if_neg hs]
        exact hs

theorem textPreRequest_valid (s : TextState) (h : textValid s.text) :
    TextAnalysis.preRequest s =
      ({ s with isLoading := true, error := none, explanation := none, result := none },
        true) := by
  unfold TextAnalysis.preRequest
  rw [if_neg h.1, if_neg h.2]

theorem pagePreRequest_valid (s : TextState) (h : textValid s.text) :
    TextAnalysisPage.preRequest s =
      ({ s with isLoading := true, error := none, explanation := none, result := none },
        true) := by
  unfold TextAnalysisPage.preRequest
  rw [if_neg h.1, if_neg h.2]

theorem audioPreRequest_valid (s : AudioState) (f : AudioFile) (hf : s.file = some f)
    (hl : AudioAnalysis.isLieFixture f = false) :
    AudioAnalysis.preRequest s = ({ s with isLoading := true, error := none }, true) := by
  unfold AudioAnalysis.preRequest
  rw [hf]
  simp [hl]

/-! ## Concrete inputs used by witnesses and counterexamples -/

/-- A 25-character text input that passes validation. -/
def st20 : TextState :=
  { text := "aaaaaaaaaaaaaaaaaaaaaaaaa", isLoading := false, isExplaining := false,
    error := none, result := none, explanation := none }

/-- A concrete parsed predict body. -/
def bT : PredictBody := { prediction := "Truthful", confidence := 1 / 2 }

/-- A text state whose input is too short. -/
def stShort : TextState :=
  { text := "short", isLoading := false, isExplaining := false,
    error := none, result := none, explanation := none }

/-- A wav file whose lowercased name contains the lie marker. -/
def fLie : AudioFile := { name := "recording_LIE_003.WAV", type := "audio/wav", size := 1000 }

/-- An audio state with the lie-fixture file selected, plus stale error and result. -/
def sLie : AudioState :=
  { file := some fLie, isLoading := false, error := some "old error",
    result := some { label := "Truthful", confidence := 50 } }

/-- A valid mp3 selection. -/
def audioOk : AudioFile := { name := "clip.mp3", type := "audio/mpeg", size := 1000 }

/-- A non-audio file. -/
def fBad : AudioFile := { name := "notes.txt", type := "text/plain", size := 10 }

/-- An audio state holding a previously accepted file and a displayed result. -/
def stalePrior : AudioState :=
  { file := some audioOk, isLoading := false, error := none,
    result := some { label := "Truthful", confidence := 80 } }

/-! ## Claims -/

/-- C2: in the audio flow, submitting a selected file whose lowercased name
ends with ".wav" and contains "_lie_" yields exactly the result with label
"Deceptive" and displayed confidence percent 95, clears the error, and
issues zero network requests. -/
theorem c2_lie_fixture (s : AudioState) (f : AudioFile) (pr : PredictResponse)
    (hf : s.file = some f) (hl : AudioAnalysis.isLieFixture f = true) :
    (AudioAnalysis.handleSubmit s pr).1.result = some ⟨"Deceptive", 95⟩ ∧
    (AudioAnalysis.handleSubmit s pr).1.error = none ∧
    (AudioAnalysis.handleSubmit s pr).2 = [] ∧
    PredictionResult.display "Deceptive" 95 = ⟨"Deceptive", 95⟩ := by
  refine ⟨?_, ?_, ?_, ?_⟩
  · simp [AudioAnalysis.handleSubmit, AudioAnalysis.preRequest, hf, hl]
  · simp [AudioAnalysis.handleSubmit, AudioAnalysis.preRequest, hf, hl]
  · simp [AudioAnalysis.handleSubmit, AudioAnalysis.preRequest, hf, hl]
  · unfold PredictionResult.display PredictionResult.confidencePercent jsMathRound
    refine congrArg _ ?_
    rw [Int.floor_eq_iff]
    norm_num

/-- C2 witness: the lie fixture behavior at a concrete selection. -/
theorem c2_lie_fixture_witness :
    sLie.file = some fLie ∧ AudioAnalysis.isLieFixture fLie = true ∧
    (AudioAnalysis.handleSubmit sLie (.throws "x")).1.result = some ⟨"Deceptive", 95⟩ ∧
    (AudioAnalysis.handleSubmit sLie (.throws "x")).1.error = none ∧
    (AudioAnalysis.handleSubmit sLie (.throws "x")).2 = [] := by
  have h := c2_lie_fixture sLie fLie (.throws "x") (by decide) (by decide)
  exact ⟨by decide, by decide, h.1, h.2.1, h.2.2.1⟩

/-- C3: in the text flow (both variants), an input that is empty,
whitespace-only (empty after trim) or shorter than 20 characters sets a
validation error, issues no network request, and leaves result and
explanation unchanged. -/
theorem c3_short_or_blank_text_rejected (s : TextState) (pr : PredictResponse)
    (er : ExplainResponse) (h : jsTrim s.text = "" ∨ s.text.length < 20) :
    ((TextAnalysis.handleSubmit s pr er).1.error = some "Please enter some text to analyze" ∨
      (TextAnalysis.handleSubmit s pr er).1.error
        = some "Please enter at least 20 characters for more accurate analysis") ∧
    (TextAnalysis.handleSubmit s pr er).2 = [] ∧
    (TextAnalysis.handleSubmit s pr er).1.result = s.result ∧
    (TextAnalysis.handleSubmit s pr er).1.explanation = s.explanation ∧
    ((TextAnalysisPage.handleSubmit s pr er).1.error
        = some "Please enter some text to analyze" ∨
      (TextAnalysisPage.handleSubmit s pr er).1.error
        = some "Please enter at least 20 characters for more accurate analysis") ∧
    (TextAnalysisPage.handleSubmit s pr er).2 = [] ∧
    (TextAnalysisPage.handleSubmit s pr er).1.result = s.result ∧
    (TextAnalysisPage.handleSubmit s pr er).1.explanation = s.explanation := by
  by_cases ht : jsTrim s.text = ""
  · simp [TextAnalysis.handleSubmit, TextAnalysis.preRequest,
      TextAnalysisPage.handleSubmit, TextAnalysisPage.preRequest, ht]
  · have hlen : s.text.length < 20 := h.resolve_left ht
    simp [TextAnalysis.handleSubmit, TextAnalysis.preRequest,
      TextAnalysisPage.handleSubmit, TextAnalysisPage.preRequest, ht, hlen]

/-- C3 witness: a concrete five-character input is rejected. -/
theorem c3_witness :
    (jsTrim stShort.text = "" ∨ stShort.text.length < 20) ∧
    (TextAnalysis.handleSubmit stShort (.success bT) .failure).2 = [] ∧
    (TextAnalysis.handleSubmit stShort (.success bT) .failure).1.result = stShort.result := by
  have h := c3_short_or_blank_text_rejected stShort (.success bT) .failure
    (Or.inr (by decide))
  exact ⟨Or.inr (by decide), h.2.1, h.2.2.1⟩

/-- C4: in the audio flow, a selected file with a non-audio MIME type or a
size over 25MB is rejected with a validation error, does not become the
current file, and no request is issued. -/
theorem c4_invalid_audio_selection_rejected (s : AudioState) (f : AudioFile)
    (h : jsStartsWith f.type "audio/" = false ∨ f.size > 25 * 1024 * 1024) :
    ((AudioAnalysis.handleFileChange s f).1.error
        = some "Please select a valid audio file (MP3 or WAV)" ∨
      (AudioAnalysis.handleFileChange s f).1.error = some "File size exceeds 25MB limit") ∧
    (AudioAnalysis.handleFileChange s f).1.file = s.file ∧
    (AudioAnalysis.handleFileChange s f).2 = [] := by
  by_cases hm : jsStartsWith f.type "audio/"
  · have hsz : f.size > 25 * 1024 * 1024 := by
      rcases h with h | h
      · rw [hm] at h
        cases h
      · exact h
    simp [AudioAnalysis.handleFileChange, hm, hsz]
  · simp [AudioAnalysis.handleFileChange, hm]

/-- C4 witness: a concrete text/plain file is rejected. -/
theorem c4_witness :
    (jsStartsWith fBad.type "audio/" = false ∨ fBad.size > 25 * 1024 * 1024) ∧
    (AudioAnalysis.handleFileChange stalePrior fBad).1.file = stalePrior.file ∧
    (AudioAnalysis.handleFileChange stalePrior fBad).2 = [] := by
  have h := c4_invalid_audio_selection_rejected stalePrior fBad (Or.inl (by decide))
  exact ⟨Or.inl (by decide), h.2.1, h.2.2⟩

/-- C5: a successful predict reply with a fractional confidence in [0,1] is
stored as label plus confidence times 100, and the `PredictionResult`
component displays the label with `Math.round` of that value, an integer in
[0,100] under round-half-up; the reply (Truthful, 0.732) displays as
(Truthful, 73). -/
theorem c5_confidence_display (s : TextState) (b : PredictBody) (er : ExplainResponse)
    (hv : textValid s.text) (h0 : 0 ≤ b.confidence) (h1 : b.confidence ≤ 1) :
    (TextAnalysis.handleSubmit s (.success b) er).1.result
      = some ⟨b.prediction, b.confidence * 100⟩ ∧
    PredictionResult.display b.prediction (b.confidence * 100)
      = ⟨b.prediction, ⌊b.confidence * 100 + 1 / 2⌋⟩ ∧
    0 ≤ PredictionResult.confidencePercent (b.confidence * 100) ∧
    PredictionResult.confidencePercent (b.confidence * 100) ≤ 100 ∧
    PredictionResult.display "Truthful" ((732 / 1000 : ℚ) * 100) = ⟨"Truthful", 73⟩ := by
  refine ⟨?_, rfl, ?_, ?_, ?_⟩
  · unfold TextAnalysis.handleSubmit
    rw [textPreRequest_valid s hv]
    cases er <;> rfl
  · unfold PredictionResult.confidencePercent jsMathRound
    refine Int.le_floor.mpr ?_
    push_cast
    linarith
  · unfold PredictionResult.confidencePercent jsMathRound
    have hlt : (⌊b.confidence * 100 + 1 / 2⌋ : ℤ) < 101 := by
      refine Int.floor_lt.mpr ?_
      push_cast
      linarith
    omega
  · unfold PredictionResult.display PredictionResult.confidencePercent jsMathRound
    refine congrArg _ ?_
    rw [Int.floor_eq_iff]
    norm_num

/-- C5 witness: the formatting property at a concrete reply with
confidence one half, together with the concrete 0.732 instance. -/
theorem c5_witness :
    textValid st20.text ∧ (0 ≤ bT.confidence ∧ bT.confidence ≤ 1) ∧
    (TextAnalysis.handleSubmit st20 (.success bT) .failure).1.result
      = some ⟨bT.prediction, bT.confidence * 100⟩ ∧
    0 ≤ PredictionResult.confidencePercent (bT.confidence * 100) ∧
    PredictionResult.confidencePercent (bT.confidence * 100) ≤ 100 ∧
    PredictionResult.display "Truthful" ((732 / 1000 : ℚ) * 100) = ⟨"Truthful", 73⟩ := by
  have h0 : (0 : ℚ) ≤ bT.confidence := by norm_num [bT]
  have h1 : bT.confidence ≤ 1 := by norm_num [bT]
  have h := c5_confidence_display st20 bT .failure (by decide) h0 h1
  exact ⟨by decide, ⟨h0, h1⟩, h.1, h.2.2.1, h.2.2.2.1, h.2.2.2.2⟩

/-- C9: in the audio flow, an invalid selection (wrong MIME type or over
25MB) only updates the error message: the previously accepted file, the
displayed result, and the loading flag are unchanged. -/
theorem c9_invalid_selection_frame (s : AudioState) (f : AudioFile)
    (h : jsStartsWith f.type "audio/" = false ∨ f.size > 25 * 1024 * 1024) :
    (AudioAnalysis.handleFileChange s f).1.file = s.file ∧
    (AudioAnalysis.handleFileChange s f).1.result = s.result ∧
    (AudioAnalysis.handleFileChange s f).1.isLoading = s.isLoading ∧
    ((AudioAnalysis.handleFileChange s f).1.error
        = some "Please select a valid audio file (MP3 or WAV)" ∨
      (AudioAnalysis.handleFileChange s f).1.error = some "File size exceeds 25MB limit") := by
  by_cases hm : jsStartsWith f.type "audio/"
  · have hsz : f.size > 25 * 1024 * 1024 := by
      rcases h with h | h
      · rw [hm] at h
        cases h
      · exact h
    simp [AudioAnalysis.handleFileChange, hm, hsz]
  · simp [AudioAnalysis.handleFileChange, hm]

/-- C9 witness: rejecting a text/plain file leaves a previously displayed
result and the previously accepted file in place, so the stale result is
shown next to the new validation error. -/
theorem c9_witness :
    (jsStartsWith fBad.type "audio/" = false ∨ fBad.size > 25 * 1024 * 1024) ∧
    (AudioAnalysis.handleFileChange stalePrior fBad).1.file = stalePrior.file ∧
    (AudioAnalysis.handleFileChange stalePrior fBad).1.result = stalePrior.result ∧
    stalePrior.result.isSome = true ∧
    stalePrior.file.isSome = true := by
  have h := c9_invalid_selection_frame stalePrior fBad (Or.inl (by decide))
  exact ⟨Or.inl (by decide), h.1, h.2.1, by decide, by decide⟩

/-- C10: in the TextAnalysis variant, a 2xx explain reply whose body lacks
the explanation field or carries an empty string yields the literal
explanation "No explanation available.". -/
theorem c10_explanation_fallback (s : TextState) (b : PredictBody) (expl : Option String)
    (hv : textValid s.text) (h : expl = none ∨ expl = some "") :
    (TextAnalysis.handleSubmit s (.success b) (.success expl)).1.explanation
      = some "No explanation available." := by
  unfold TextAnalysis.handleSubmit
  rw [textPreRequest_valid s hv]
  rcases h with h | h <;> rw [h] <;> rfl

/-- C10 witness: the fallback at a concrete missing field and at a concrete
empty-string field. -/
theorem c10_witness :
    textValid st20.text ∧
    (TextAnalysis.handleSubmit st20 (.success bT) (.success none)).1.explanation
      = some "No explanation available." ∧
    (TextAnalysis.handleSubmit st20 (.success bT) (.success (some ""))).1.explanation
      = some "No explanation available." := by
  exact ⟨by decide,
    c10_explanation_fallback st20 bT none (by decide) (Or.inl rfl),
    c10_explanation_fallback st20 bT (some "") (by decide) (Or.inr rfl)⟩

/-- C1 counterexample: with a valid text, a successful predict reply, and a
failing explain phase, the claim fails on the code. In the TextAnalysis
variant a non-2xx explain reply leaves the explanation null, so no fallback
message is shown; and when the explain fetch throws, the catch sets the
error state, so the submission does enter a failure state. -/
theorem c1_counterexample :
    (TextAnalysis.handleSubmit st20 (.success bT) .failure).1.result.isSome = true ∧
    (TextAnalysis.handleSubmit st20 (.success bT) .failure).1.explanation = none ∧
    (TextAnalysis.handleSubmit st20 (.success bT) (.throws "NetworkError")).1.error
      = some "NetworkError" := by
  refine ⟨by decide, by decide, by decide⟩

/-- C1 amended: when predict succeeds and the explain request returns a
non-2xx reply, both text-flow variants retain the prediction result and do
not set the error; the TextAnalysisPage variant shows the fixed fallback
explanation message while the TextAnalysis variant leaves the explanation
null. When the explain fetch throws, the prediction result still remains
set, but the error state is set to the thrown message, so the failure is
reported at submission level. -/
theorem c1_explain_failure_behavior (s : TextState) (b : PredictBody) (msg : String)
    (hv : textValid s.text) :
    ((TextAnalysis.handleSubmit s (.success b) .failure).1.result
        = some ⟨b.prediction, b.confidence * 100⟩ ∧
      (TextAnalysis.handleSubmit s (.success b) .failure).1.error = none ∧
      (TextAnalysis.handleSubmit s (.success b) .failure).1.explanation = none) ∧
    ((TextAnalysisPage.handleSubmit s (.success b) .failure).1.result
        = some ⟨b.prediction, b.confidence * 100⟩ ∧
      (TextAnalysisPage.handleSubmit s (.success b) .failure).1.error = none ∧
      (TextAnalysisPage.handleSubmit s (.success b) .failure).1.explanation
        = some "Explanation request failed. Please try again.") ∧
    ((TextAnalysis.handleSubmit s (.success b) (.throws msg)).1.result
        = some ⟨b.prediction, b.confidence * 100⟩ ∧
      (TextAnalysis.handleSubmit s (.success b) (.throws msg)).1.error
        = some (jsOr msg "Failed to analyze text. Please try again.")) ∧
    ((TextAnalysisPage.handleSubmit s (.success b) (.throws msg)).1.result
        = some ⟨b.prediction, b.confidence * 100⟩ ∧
      (TextAnalysisPage.handleSubmit s (.success b) (.throws msg)).1.error
        = some (jsOr msg
            "Failed to connect to the prediction API. Ensure the Flask backend is running.")) := by
  unfold TextAnalysis.handleSubmit TextAnalysisPage.handleSubmit
  rw [textPreRequest_valid s hv, pagePreRequest_valid s hv]
  exact ⟨⟨rfl, rfl, rfl⟩, ⟨rfl, rfl, rfl⟩, ⟨rfl, rfl⟩, ⟨rfl, rfl⟩⟩

/-- C1 witness: the amended behavior at a concrete valid text, predict body
and thrown message. -/
theorem c1_witness :
    textValid st20.text ∧
    (TextAnalysis.handleSubmit st20 (.success bT) .failure).1.error = none ∧
    (TextAnalysisPage.handleSubmit st20 (.success bT) .failure).1.explanation
      = some "Explanation request failed. Please try again." ∧
    (TextAnalysis.handleSubmit st20 (.success bT) (.throws "boom")).1.error
      = some (jsOr "boom" "Failed to analyze text. Please try again.") := by
  have h := c1_explain_failure_behavior st20 bT "boom" (by decide)
  exact ⟨by decide, h.1.2.1, h.2.1.2.2, h.2.2.1.2⟩

/-- C6 counterexample: in the audio flow, a submission that passes
validation (an accepted non-fixture file) issues the audio-predict request
while the prior result is still set: only the error is cleared before the
fetch, so the claim fails on the code. -/
theorem c6_counterexample :
    (AudioAnalysis.preRequest stalePrior).2 = true ∧
    (AudioAnalysis.preRequest stalePrior).1.result = stalePrior.result ∧
    stalePrior.result.isSome = true ∧
    (AudioAnalysis.handleSubmit stalePrior (.success ⟨"Deceptive", 1 / 2⟩)).2
      = [Endpoint.audioPredict] := by
  refine ⟨by decide, rfl, by decide, by decide⟩

/-- C6 amended: in the text flow, every submission that passes validation
resets result, explanation, and error to null before the request is issued,
and the clear actions (clear text, remove file) reset them as well; in the
audio flow, a validated submission resets only the error before issuing the
request, leaving the prior result in place until the response arrives. -/
theorem c6_reset_before_request (s : TextState) (sa : AudioState) (f : AudioFile)
    (hv : textValid s.text) (hf : sa.file = some f)
    (hl : AudioAnalysis.isLieFixture f = false) :
    ((TextAnalysis.preRequest s).2 = true ∧
      (TextAnalysis.preRequest s).1.result = none ∧
      (TextAnalysis.preRequest s).1.explanation = none ∧
      (TextAnalysis.preRequest s).1.error = none) ∧
    ((TextAnalysisPage.preRequest s).2 = true ∧
      (TextAnalysisPage.preRequest s).1.result = none ∧
      (TextAnalysisPage.preRequest s).1.explanation = none ∧
      (TextAnalysisPage.preRequest s).1.error = none) ∧
    ((TextAnalysis.handleClearText s).result = none ∧
      (TextAnalysis.handleClearText s).error = none ∧
      (TextAnalysis.handleClearText s).explanation = none) ∧
    ((AudioAnalysis.handleRemoveFile sa).file = none ∧
      (AudioAnalysis.handleRemoveFile sa).result = none ∧
      (AudioAnalysis.handleRemoveFile sa).error = none) ∧
    ((AudioAnalysis.preRequest sa).2 = true ∧
      (AudioAnalysis.preRequest sa).1.error = none ∧
      (AudioAnalysis.preRequest sa).1.result = sa.result) := by
  refine ⟨?_, ?_, ⟨rfl, rfl, rfl⟩, ⟨rfl, rfl, rfl⟩, ?_⟩
  · rw [textPreRequest_valid s hv]
    exact ⟨rfl, rfl, rfl, rfl⟩
  · rw [pagePreRequest_valid s hv]
    exact ⟨rfl, rfl, rfl, rfl⟩
  · rw [audioPreRequest_valid sa f hf hl]
    exact ⟨rfl, rfl, rfl⟩

/-- C6 witness: the amended reset behavior at a concrete valid text state
and a concrete accepted non-fixture audio file. -/
theorem c6_witness :
    textValid st20.text ∧ stalePrior.file = some audioOk ∧
    AudioAnalysis.isLieFixture audioOk = false ∧
    (TextAnalysis.preRequest st20).1.result = none ∧
    (AudioAnalysis.preRequest stalePrior).1.error = none ∧
    (AudioAnalysis.preRequest stalePrior).1.result = stalePrior.result := by
  have h := c6_reset_before_request st20 stalePrior audioOk (by decide) (by decide) (by decide)
  exact ⟨by decide, by decide, by decide, h.1.2.1, h.2.2.2.2.2.1, h.2.2.2.2.2.2⟩

/-- C7 counterexample: a non-2xx predict reply whose JSON body carries the
error field with the empty string produces the generic status message, not
the carried field value, so the claim fails on the code: the JavaScript
truthiness test `errorData?.error || ...` also discards an empty string. -/
theorem c7_counterexample :
    (TextAnalysis.handleSubmit st20 (.failure 400 (some ⟨some ""⟩)) .failure).1.error
      = some "Server error: 400" ∧
    ("Server error: 400" = "" → False) := by
  refine ⟨by decide, by decide⟩

/-- C7 amended: for a non-2xx predict or audio-predict reply, the error
message equals the error field of the parsed JSON body when that field is
present and a non-empty string, and otherwise (unparseable body, missing
field, or empty-string field) equals the generic message with the status
interpolated; all three handlers surface exactly this message. -/
theorem c7_server_error_message (status : Nat) (body : Option ErrorBody) :
    (∀ msg, msg ≠ "" → body.bind (fun b => b.error) = some msg →
      serverErrorMessage status body = msg) ∧
    ((body.bind (fun b => b.error) = none ∨ body.bind (fun b => b.error) = some "") →
      serverErrorMessage status body = "Server error: " ++ toString status) ∧
    (∀ s er, textValid s.text →
      (TextAnalysis.handleSubmit s (.failure status body) er).1.error
        = some (serverErrorMessage status body)) ∧
    (∀ s er, textValid s.text →
      (TextAnalysisPage.handleSubmit s (.failure status body) er).1.error
        = some (serverErrorMessage status body)) ∧
    (∀ sa f, sa.file = some f → AudioAnalysis.isLieFixture f = false →
      (AudioAnalysis.handleSubmit sa (.failure status body)).1.error
        = some (serverErrorMessage status body)) := by
  refine ⟨?_, ?_, ?_, ?_, ?_⟩
  · intro msg hne hb
    unfold serverErrorMessage
    rw [hb]
    simp only [jsOrOpt]
    exact jsOr_of_ne msg _ hne
  · intro hb
    unfold serverErrorMessage
    rcases hb with hb | hb <;> rw [hb] <;> simp [jsOrOpt, jsOr]
  · intro s er hv
    unfold TextAnalysis.handleSubmit
    rw [textPreRequest_valid s hv]
    exact congrArg some (jsOr_of_ne _ _ (serverErrorMessage_ne_empty status body))
  · intro s er hv
    unfold TextAnalysisPage.handleSubmit
    rw [pagePreRequest_valid s hv]
    exact congrArg some (jsOr_of_ne _ _ (serverErrorMessage_ne_empty status body))
  · intro sa f hf hl
    unfold AudioAnalysis.handleSubmit
    rw [audioPreRequest_valid sa f hf hl]
    exact congrArg some (jsOr_of_ne _ _ (serverErrorMessage_ne_empty status body))

/-- C7 witness: the amended message rule at a concrete 404 reply carrying a
non-empty error field, and at a concrete 500 reply with no parseable body. -/
theorem c7_witness :
    serverErrorMessage 404 (some ⟨some "bad input"⟩) = "bad input" ∧
    serverErrorMessage 500 none = "Server error: " ++ toString 500 ∧
    (TextAnalysis.handleSubmit st20 (.failure 404 (some ⟨some "bad input"⟩)) .failure).1.error
      = some (serverErrorMessage 404 (some ⟨some "bad input"⟩)) := by
  have h404 := c7_server_error_message 404 (some ⟨some "bad input"⟩)
  have h500 := c7_server_error_message 500 none
  exact ⟨h404.1 "bad input" (by decide) rfl, h500.2.1 (Or.inl rfl),
    h404.2.2.1 st20 .failure (by decide)⟩

/-- C8: the two text-flow implementations diverge on explain failure: with
predict succeeded and a non-2xx explain reply, the TextAnalysisPage variant
sets the fixed fallback explanation message while the TextAnalysis variant
leaves the explanation null; and on all inputs, given the same responses,
the two variants compute the same prediction result. -/
theorem c8_variant_divergence :
    (∀ s b, textValid s.text →
      (TextAnalysis.handleSubmit s (.success b) .failure).1.explanation = none ∧
      (TextAnalysisPage.handleSubmit s (.success b) .failure).1.explanation
        = some "Explanation request failed. Please try again.") ∧
    (∀ s pr er, (TextAnalysis.handleSubmit s pr er).1.result
      = (TextAnalysisPage.handleSubmit s pr er).1.result) := by
  constructor
  · intro s b hv
    constructor
    · unfold TextAnalysis.handleSubmit
      rw [textPreRequest_valid s hv]
    · unfold TextAnalysisPage.handleSubmit
      rw [pagePreRequest_valid s hv]
  · intro s pr er
    unfold TextAnalysis.handleSubmit TextAnalysisPage.handleSubmit
      TextAnalysis.preRequest TextAnalysisPage.preRequest
    by_cases h1 : jsTrim s.text = ""
    · simp [h1]
    · by_cases h2 : s.text.length < 20
      · simp [h1, h2]
      · simp only [h1, h2, if_false, if_true, ite_false, ite_true]
        cases pr <;> try rfl
        cases er <;> rfl

/-- C8 witness: the divergence at a concrete valid text and predict body,
and result agreement at one concrete run. -/
theorem c8_witness :
    textValid st20.text ∧
    (TextAnalysis.handleSubmit st20 (.success bT) .failure).1.explanation = none ∧
    (TextAnalysisPage.handleSubmit st20 (.success bT) .failure).1.explanation
      = some "Explanation request failed. Please try again." ∧
    (TextAnalysis.handleSubmit st20 (.success bT) .failure).1.result
      = (TextAnalysisPage.handleSubmit st20 (.success bT) .failure).1.result := by
  have h := c8_variant_divergence
  have h1 := h.1 st20 bT (by decide)
  exact ⟨by decide, h1.1, h1.2, h.2 st20 (.success bT) .failure⟩
